import Mathlib

/-!
Shallow embedding of the shading pipeline and orbit-camera controller of
`src/src/scripts/index.ts` (a GLSL fragment shader embedded in TypeScript,
plus camera/mouse logic), together with theorems settling the claims about
them.  GLSL floats are modelled as real numbers; the shader's `PI` is the
literal `3.14159265359` from its `#define`.
-/

noncomputable section

namespace ThreeLab

/-- Shader constant: `#define PI 3.14159265359`. -/
def PI : ℝ := 3.14159265359

/-- Shader constant: `#define EPSILON 1e-6`. -/
def EPSILON : ℝ := 1e-6

/-- A GLSL `vec3` of real components. -/
@[ext] structure Vec3 where
  x : ℝ
  y : ℝ
  z : ℝ

instance : Add Vec3 := ⟨fun u v => ⟨u.x + v.x, u.y + v.y, u.z + v.z⟩⟩

instance : Sub Vec3 := ⟨fun u v => ⟨u.x - v.x, u.y - v.y, u.z - v.z⟩⟩

instance : Neg Vec3 := ⟨fun v => ⟨-v.x, -v.y, -v.z⟩⟩

instance : Mul Vec3 := ⟨fun u v => ⟨u.x * v.x, u.y * v.y, u.z * v.z⟩⟩

instance : SMul ℝ Vec3 := ⟨fun s v => ⟨s * v.x, s * v.y, s * v.z⟩⟩

/-- Componentwise division of a `vec3` by a scalar (GLSL `v / s`). -/
def Vec3.divS (v : Vec3) (s : ℝ) : Vec3 := ⟨v.x / s, v.y / s, v.z / s⟩

/-- GLSL `dot` on `vec3`. -/
def dot3 (u v : Vec3) : ℝ := u.x * v.x + u.y * v.y + u.z * v.z

/-- GLSL `length` on `vec3`. -/
def length3 (v : Vec3) : ℝ := Real.sqrt (dot3 v v)

/-- GLSL `normalize` on `vec3`. -/
def normalize3 (v : Vec3) : Vec3 := v.divS (length3 v)

/-- GLSL `clamp` on floats. -/
def clampR (x minVal maxVal : ℝ) : ℝ := min (max x minVal) maxVal

/-- Shader helper: `float saturate(float x) { return clamp(x, 0.0, 1.0); }`. -/
def saturate (x : ℝ) : ℝ := clampR x 0 1

/-- GLSL `mix(a, b, t) = a*(1-t) + b*t`, componentwise on `vec3`. -/
def mix3 (a b : Vec3) (t : ℝ) : Vec3 :=
  ⟨a.x * (1 - t) + b.x * t, a.y * (1 - t) + b.y * t, a.z * (1 - t) + b.z * t⟩

/-- Linear interpolation as the spec words it: `lerp(a, b, t) = a + t*(b - a)`
(used only to compare against the source's `mix`). -/
def lerp3 (a b : Vec3) (t : ℝ) : Vec3 := a + t • (b - a)

/-- Shader struct `IncidentLight`. -/
structure IncidentLight where
  color : Vec3
  direction : Vec3
  visible : Bool

/-- Shader struct `ReflectedLight`. -/
structure ReflectedLight where
  directDiffuse : Vec3
  directSpecular : Vec3
  indirectDiffuse : Vec3
  indirectSpecular : Vec3

/-- Shader struct `GeometricContext`. -/
structure GeometricContext where
  position : Vec3
  normal : Vec3
  viewDir : Vec3

/-- Shader struct `Material`. -/
structure Material where
  diffuseColor : Vec3
  specularRoughness : ℝ
  specularColor : Vec3

/-- Shader: `bool testLightInRange(lightDistance, cutoffDistance)` returns
`cutoffDistance == 0.0 || lightDistance < cutoffDistance`. -/
def testLightInRange (lightDistance cutoffDistance : ℝ) : Prop :=
  cutoffDistance = 0 ∨ lightDistance < cutoffDistance

/-- The branch guard of `punctualLightIntensityToIrradianceFactor`: the inner
division is evaluated exactly when `decayExponent > 0.0`. -/
def punctualDecayActive (decayExponent : ℝ) : Prop :=
  0 < decayExponent

/-- The denominator of the division `-lightDistance / cutoffDistance` inside
`punctualLightIntensityToIrradianceFactor`: the raw cutoff distance, with no
epsilon added. -/
def punctualAttenuationDenominator (lightDistance cutoffDistance decayExponent : ℝ) : ℝ :=
  cutoffDistance

open scoped Classical in
/-- Shader: `punctualLightIntensityToIrradianceFactor` — when the decay
exponent is positive, `pow(saturate(-lightDistance / cutoffDistance + 1.0),
decayExponent)`, else `1.0`. -/
def punctualLightIntensityToIrradianceFactor
    (lightDistance cutoffDistance decayExponent : ℝ) : ℝ :=
  if punctualDecayActive decayExponent then
    (saturate (-lightDistance / punctualAttenuationDenominator lightDistance cutoffDistance decayExponent + 1)) ^ decayExponent
  else 1

/-- Shader struct `DirectionalLight`. -/
structure DirectionalLight where
  direction : Vec3
  color : Vec3

/-- Shader: `getDirectionalDirectLightIrradiance` copies the light's color and
direction into the incident light and marks it visible. -/
def getDirectionalDirectLightIrradiance
    (directionalLight : DirectionalLight) (geometry : GeometricContext) : IncidentLight :=
  { color := directionalLight.color
    direction := directionalLight.direction
    visible := true }

/-- Shader struct `PointLight`. -/
structure PointLight where
  position : Vec3
  color : Vec3
  distance : ℝ
  decay : ℝ

open scoped Classical in
/-- Shader: `getPointDirectLightIrradiance`. -/
def getPointDirectLightIrradiance
    (pointLight : PointLight) (geometry : GeometricContext) : IncidentLight :=
  let L := pointLight.position - geometry.position
  let direction := normalize3 L
  let lightDistance := length3 L
  if testLightInRange lightDistance pointLight.distance then
    { color := (punctualLightIntensityToIrradianceFactor lightDistance pointLight.distance pointLight.decay) • pointLight.color
      direction := direction
      visible := true }
  else
    { color := ⟨0, 0, 0⟩
      direction := direction
      visible := false }

/-- Shader: Normalized Lambert, `DiffuseBRDF(diffuseColor) = diffuseColor / PI`. -/
def DiffuseBRDF (diffuseColor : Vec3) : Vec3 :=
  diffuseColor.divS PI

/-- Shader: Schlick Fresnel,
`specularColor + (1 - specularColor) * pow(1 - saturate(dot(V,H)), 5)`. -/
def F_Schlick (specularColor H V : Vec3) : Vec3 :=
  specularColor + ((1 - saturate (dot3 V H)) ^ (5 : ℕ)) • (⟨1, 1, 1⟩ - specularColor)

/-- Shader: GGX / Trowbridge-Reitz normal distribution,
`a2 / (PI * d * d)` with `d = dotNH^2 * (a2 - 1) + 1`. -/
def D_GGX (a dotNH : ℝ) : ℝ :=
  let a2 := a * a
  let dotNH2 := dotNH * dotNH
  let d := dotNH2 * (a2 - 1) + 1
  a2 / (PI * d * d)

/-- The `k` used by the Smith–Schlick geometric term: `a*a*0.5 + EPSILON`. -/
def G_k (a : ℝ) : ℝ := a * a * 0.5 + EPSILON

/-- The (epsilon-protected) denominator of each factor of the Smith–Schlick
geometric term: `dotN * (1.0 - k) + k`. -/
def G_Smith_denominator (k dotN : ℝ) : ℝ := dotN * (1 - k) + k

/-- Shader: Smith–Schlick GGX geometric shadowing term. -/
def G_Smith_Schlick_GGX (a dotNV dotNL : ℝ) : ℝ :=
  let k := G_k a
  let gl := dotNL / G_Smith_denominator k dotNL
  let gv := dotNV / G_Smith_denominator k dotNV
  gl * gv

/-- The (epsilon-protected) denominator of `SpecularBRDF`:
`4.0 * dotNL * dotNV + EPSILON`. -/
def specularDenominator (dotNL dotNV : ℝ) : ℝ := 4 * dotNL * dotNV + EPSILON

/-- Shader: Cook–Torrance specular BRDF. -/
def SpecularBRDF (directLight : IncidentLight) (geometry : GeometricContext)
    (specularColor : Vec3) (roughnessFactor : ℝ) : Vec3 :=
  let N := geometry.normal
  let V := geometry.viewDir
  let L := directLight.direction
  let dotNL := saturate (dot3 N L)
  let dotNV := saturate (dot3 N V)
  let H := normalize3 (L + V)
  let dotNH := saturate (dot3 N H)
  let D := D_GGX (roughnessFactor * roughnessFactor) dotNH
  let G := G_Smith_Schlick_GGX (roughnessFactor * roughnessFactor) dotNV dotNL
  let F := F_Schlick specularColor H V
  ((G * D) • F).divS (specularDenominator dotNL dotNV)

/-- Shader: `RE_Direct` — accumulates the direct diffuse and specular
contributions of one incident light into the reflected-light accumulators. -/
def RE_Direct (directLight : IncidentLight) (geometry : GeometricContext)
    (material : Material) (reflectedLight : ReflectedLight) : ReflectedLight :=
  let dotNL := saturate (dot3 geometry.normal directLight.direction)
  let irradiance := dotNL • directLight.color
  let irradiancePi := PI • irradiance
  { reflectedLight with
    directDiffuse := reflectedLight.directDiffuse + irradiancePi * DiffuseBRDF material.diffuseColor
    directSpecular := reflectedLight.directSpecular + irradiancePi * SpecularBRDF directLight geometry material.specularColor material.specularRoughness }

/-- Material derivation in the shader's `main`:
`diffuseColor = mix(albedo, vec3(0.0), metallic)`,
`specularColor = mix(vec3(0.04), albedo, metallic)`,
`specularRoughness = roughness`. -/
def deriveMaterial (albedo : Vec3) (metallic roughness : ℝ) : Material :=
  { diffuseColor := mix3 albedo ⟨0, 0, 0⟩ metallic
    specularRoughness := roughness
    specularColor := mix3 ⟨0.04, 0.04, 0.04⟩ albedo metallic }

/-- A GLSL `vec4` of real components. -/
@[ext] structure Vec4 where
  x : ℝ
  y : ℝ
  z : ℝ
  w : ℝ

/-- GLSL column-major `mat4 * vec4`: component `i` of the product is
`sum over j of M[j][i] * v[j]`. -/
def mat4MulVec4 (m : Fin 4 → Fin 4 → ℝ) (v : Fin 4 → ℝ) : Fin 4 → ℝ :=
  fun i => m 0 i * v 0 + m 1 i * v 1 + m 2 i * v 2 + m 3 i * v 3

/-- The constant vector `vec4(1.0, 1.0, 1.0, 0.0)` the shader transforms by
the view matrix to get the directional light's direction. -/
def vec4_1110 : Fin 4 → ℝ := ![1, 1, 1, 0]

/-- `(vMat * vec4(1.0, 1.0, 1.0, 0.0)).xyz` from the shader's `main`. -/
def mat4MulXYZ (m : Fin 4 → Fin 4 → ℝ) : Vec3 :=
  let r := mat4MulVec4 m vec4_1110
  ⟨r 0, r 1, r 2⟩

/-- `ReflectedLight(vec3(0.0), vec3(0.0), vec3(0.0), vec3(0.0))`. -/
def zeroReflectedLight : ReflectedLight :=
  ⟨⟨0, 0, 0⟩, ⟨0, 0, 0⟩, ⟨0, 0, 0⟩, ⟨0, 0, 0⟩⟩

/-- The shader's directional-light `for` loop: iterate over the loop counter
values, breaking as soon as `i >= numDirectionalLights`. -/
def directionalLightLoop (num : ℤ) (f : ReflectedLight → ReflectedLight) :
    List ℕ → ReflectedLight → ReflectedLight
  | [], acc => acc
  | i :: rest, acc =>
    if num ≤ (i : ℤ) then acc else directionalLightLoop num f rest (f acc)

/-- The fragment shader's `main`, parameterised by the varyings, the material
uniforms, and the directional-light count (the shader's global
`int numDirectionalLights = 1`; point and spot light loops are commented out
in the source and contribute nothing). -/
def mainFragment (vViewPosition vNormal : Vec3) (vMat : Fin 4 → Fin 4 → ℝ)
    (metallic roughness : ℝ) (albedo : Vec3) (numDirectionalLights : ℤ) : Vec4 :=
  let geometry : GeometricContext :=
    { position := -vViewPosition
      normal := normalize3 vNormal
      viewDir := normalize3 vViewPosition }
  let material := deriveMaterial albedo metallic roughness
  let emissive : Vec3 := ⟨0, 0, 0⟩
  let opacity : ℝ := 1.0
  let lightStep : ReflectedLight → ReflectedLight := fun reflectedLight =>
    let directionalLight : DirectionalLight :=
      { direction := mat4MulXYZ vMat, color := ⟨1, 1, 1⟩ }
    let directLight := getDirectionalDirectLightIrradiance directionalLight geometry
    RE_Direct directLight geometry material reflectedLight
  let reflectedLight :=
    directionalLightLoop numDirectionalLights lightStep [0, 1, 2, 3] zeroReflectedLight
  let outgoingLight := emissive + reflectedLight.directDiffuse +
    reflectedLight.directSpecular + reflectedLight.indirectDiffuse +
    reflectedLight.indirectSpecular
  ⟨outgoingLight.x, outgoingLight.y, outgoingLight.z, opacity⟩

/-- TypeScript type `PolarCoordinate3`. -/
structure PolarCoordinate3 where
  phi : ℝ
  theta : ℝ
  radius : ℝ

/-- The camera state touched by `setCameraPositionWithPolar`: position, the
target passed to `lookAt`, and the up vector. -/
@[ext] structure CameraState where
  position : Vec3
  lookTarget : Vec3
  up : Vec3

/-- `const origin3 = new THREE.Vector3(0.0, 0.0, 0.0)`. -/
def origin3 : Vec3 := ⟨0, 0, 0⟩

/-- Model of `camera.lookAt(target)`: records the look-at target. -/
def lookAt (camera : CameraState) (target : Vec3) : CameraState :=
  { camera with lookTarget := target }

/-- TypeScript `setCameraPositionWithPolar`: sets the position from spherical
coordinates, looks at the origin, then sets the up vector. -/
def setCameraPositionWithPolar (polar : PolarCoordinate3) (camera : CameraState) :
    CameraState :=
  let sinTheta := Real.sin polar.theta
  let cosTheta := Real.cos polar.theta
  let c1 := { camera with
    position := ⟨polar.radius * sinTheta * Real.cos polar.phi,
                 polar.radius * sinTheta * Real.sin polar.phi,
                 polar.radius * cosTheta⟩ }
  let c2 := lookAt c1 origin3
  { c2 with
    up := ⟨-1.0 * cosTheta * Real.cos polar.phi,
           -1.0 * cosTheta * Real.sin polar.phi,
           sinTheta⟩ }

/-- The `mousemove` handler's effect on the polar coordinate: a no-op when the
mouse button is not down, otherwise `phi -= 0.002 * movementX;
theta -= 0.002 * movementY` with no clamping. -/
def mousemoveUpdate (isMouseDown : Bool) (polar : PolarCoordinate3)
    (movementX movementY : ℝ) : PolarCoordinate3 :=
  if isMouseDown then
    { phi := polar.phi - 0.002 * movementX
      theta := polar.theta - 0.002 * movementY
      radius := polar.radius }
  else polar

/-! ### Componentwise lemmas for the vector operations -/

@[simp] theorem Vec3.add_x (u v : Vec3) : (u + v).x = u.x + v.x := rfl

@[simp] theorem Vec3.add_y (u v : Vec3) : (u + v).y = u.y + v.y := rfl

@[simp] theorem Vec3.add_z (u v : Vec3) : (u + v).z = u.z + v.z := rfl

@[simp] theorem Vec3.sub_x (u v : Vec3) : (u - v).x = u.x - v.x := rfl

@[simp] theorem Vec3.sub_y (u v : Vec3) : (u - v).y = u.y - v.y := rfl

@[simp] theorem Vec3.sub_z (u v : Vec3) : (u - v).z = u.z - v.z := rfl

@[simp] theorem Vec3.neg_x (v : Vec3) : (-v).x = -v.x := rfl

@[simp] theorem Vec3.neg_y (v : Vec3) : (-v).y = -v.y := rfl

@[simp] theorem Vec3.neg_z (v : Vec3) : (-v).z = -v.z := rfl

@[simp] theorem Vec3.mul_x (u v : Vec3) : (u * v).x = u.x * v.x := rfl

@[simp] theorem Vec3.mul_y (u v : Vec3) : (u * v).y = u.y * v.y := rfl

@[simp] theorem Vec3.mul_z (u v : Vec3) : (u * v).z = u.z * v.z := rfl

@[simp] theorem Vec3.smul_x (s : ℝ) (v : Vec3) : (s • v).x = s * v.x := rfl

@[simp] theorem Vec3.smul_y (s : ℝ) (v : Vec3) : (s • v).y = s * v.y := rfl

@[simp] theorem Vec3.smul_z (s : ℝ) (v : Vec3) : (s • v).z = s * v.z := rfl

@[simp] theorem Vec3.divS_x (v : Vec3) (s : ℝ) : (v.divS s).x = v.x / s := rfl

@[simp] theorem Vec3.divS_y (v : Vec3) (s : ℝ) : (v.divS s).y = v.y / s := rfl

@[simp] theorem Vec3.divS_z (v : Vec3) (s : ℝ) : (v.divS s).z = v.z / s := rfl

/-! ### Helper lemmas -/

theorem saturate_nonneg (x : ℝ) : 0 ≤ saturate x := by
  unfold saturate clampR
  exact le_min (le_max_right x 0) zero_le_one

theorem saturate_le_one (x : ℝ) : saturate x ≤ 1 := by
  unfold saturate clampR
  exact min_le_right _ _

theorem G_k_pos (a : ℝ) : 0 < G_k a := by
  unfold G_k EPSILON
  nlinarith [mul_self_nonneg a]

theorem G_Smith_denominator_pos {k s : ℝ} (hk : 0 < k) (h0 : 0 ≤ s) (h1 : s ≤ 1) :
    0 < G_Smith_denominator k s := by
  unfold G_Smith_denominator
  rcases eq_or_lt_of_le h0 with h | h
  · rw [← h]
    simpa using hk
  · nlinarith [mul_nonneg hk.le (sub_nonneg.mpr h1)]

/-! ### Claim theorems -/

/-- Claim C1: for every incident light, geometric context and material,
`RE_Direct` adds exactly
`saturate(dot(normal, direction)) * lightColor * PI * (diffuseColor / PI)
 = dotNL * lightColor * diffuseColor`
to the `directDiffuse` accumulator; in particular, for albedo `(1,1,1)`,
metallic `0.5`, a directional light of color `(1,1,1)` and
normal = viewDir = light direction = `(0,0,1)`, the accumulated
`directDiffuse` is `(0.5, 0.5, 0.5)`. -/
theorem C1_RE_Direct_adds_diffuse :
    (∀ (directLight : IncidentLight) (geometry : GeometricContext)
        (material : Material) (reflectedLight : ReflectedLight),
      (RE_Direct directLight geometry material reflectedLight).directDiffuse =
        reflectedLight.directDiffuse +
          saturate (dot3 geometry.normal directLight.direction) •
            (directLight.color * material.diffuseColor)) ∧
    (RE_Direct
        (getDirectionalDirectLightIrradiance
          { direction := ⟨0, 0, 1⟩, color := ⟨1, 1, 1⟩ }
          { position := ⟨0, 0, 0⟩, normal := ⟨0, 0, 1⟩, viewDir := ⟨0, 0, 1⟩ })
        { position := ⟨0, 0, 0⟩, normal := ⟨0, 0, 1⟩, viewDir := ⟨0, 0, 1⟩ }
        (deriveMaterial ⟨1, 1, 1⟩ 0.5 0.5) zeroReflectedLight).directDiffuse =
      ⟨0.5, 0.5, 0.5⟩ := by
  have hPI : PI ≠ 0 := by unfold PI; norm_num
  constructor
  · intro directLight geometry material reflectedLight
    ext <;>
      · simp only [RE_Direct, DiffuseBRDF, Vec3.add_x, Vec3.add_y, Vec3.add_z,
          Vec3.mul_x, Vec3.mul_y, Vec3.mul_z, Vec3.smul_x, Vec3.smul_y, Vec3.smul_z,
          Vec3.divS_x, Vec3.divS_y, Vec3.divS_z]
        field_simp
        ring
  · ext <;>
      norm_num [RE_Direct, getDirectionalDirectLightIrradiance, deriveMaterial,
        zeroReflectedLight, DiffuseBRDF, mix3, saturate, clampR, dot3, PI,
        min_def, max_def, Vec3.smul_x, Vec3.smul_y, Vec3.smul_z,
        Vec3.divS_x, Vec3.divS_y, Vec3.divS_z]

/-- Claim C2: `D_GGX` returns `a^2 / (PI * (dotNH^2 * (a^2 - 1) + 1)^2)` for
every `a` and `dotNH`, and in particular `D_GGX 1 1 = 1 / PI`. -/
theorem C2_D_GGX_formula :
    (∀ a dotNH : ℝ,
      D_GGX a dotNH = a ^ 2 / (PI * (dotNH ^ 2 * (a ^ 2 - 1) + 1) ^ 2)) ∧
    D_GGX 1 1 = 1 / PI := by
  constructor
  · intro a dotNH
    simp only [D_GGX]
    ring_nf
  · simp only [D_GGX]
    norm_num

/-- Claim C3: the derived material colors satisfy
`diffuseColor = lerp(albedo, (0,0,0), metallic)` and
`specularColor = lerp((0.04,0.04,0.04), albedo, metallic)`; hence metallic 1
gives black diffuse and `specularColor = albedo`, and metallic 0 gives
`specularColor = (0.04, 0.04, 0.04)` exactly. -/
theorem C3_material_lerp (albedo : Vec3) (metallic roughness : ℝ) :
    (deriveMaterial albedo metallic roughness).diffuseColor =
      lerp3 albedo ⟨0, 0, 0⟩ metallic ∧
    (deriveMaterial albedo metallic roughness).specularColor =
      lerp3 ⟨0.04, 0.04, 0.04⟩ albedo metallic ∧
    (deriveMaterial albedo 1 roughness).diffuseColor = ⟨0, 0, 0⟩ ∧
    (deriveMaterial albedo 1 roughness).specularColor = albedo ∧
    (deriveMaterial albedo 0 roughness).specularColor = ⟨0.04, 0.04, 0.04⟩ := by
  refine ⟨?_, ?_, ?_, ?_, ?_⟩ <;>
    · ext <;>
        · simp only [deriveMaterial, mix3, lerp3, Vec3.add_x, Vec3.add_y, Vec3.add_z,
            Vec3.sub_x, Vec3.sub_y, Vec3.sub_z, Vec3.smul_x, Vec3.smul_y, Vec3.smul_z]
          ring

/-- Claim C4: the incident light computed for a point light is visible iff the
cutoff distance is 0 or the separation is strictly below it, and an invisible
incident light has color exactly `(0,0,0)`. -/
theorem C4_pointLight_visibility (pointLight : PointLight) (geometry : GeometricContext) :
    ((getPointDirectLightIrradiance pointLight geometry).visible = true ↔
      (pointLight.distance = 0 ∨
        length3 (pointLight.position - geometry.position) < pointLight.distance)) ∧
    ((getPointDirectLightIrradiance pointLight geometry).visible = false →
      (getPointDirectLightIrradiance pointLight geometry).color = ⟨0, 0, 0⟩) := by
  by_cases h : testLightInRange (length3 (pointLight.position - geometry.position))
      pointLight.distance
  · have h' : pointLight.distance = 0 ∨
        length3 (pointLight.position - geometry.position) < pointLight.distance := h
    constructor
    · simp only [getPointDirectLightIrradiance]
      rw [if_pos h]
      simpa using h'
    · simp only [getPointDirectLightIrradiance]
      rw [if_pos h]
      intro hfalse
      simp at hfalse
  · have h' : ¬(pointLight.distance = 0 ∨
        length3 (pointLight.position - geometry.position) < pointLight.distance) := h
    constructor
    · simp only [getPointDirectLightIrradiance]
      rw [if_neg h]
      simpa using h'
    · simp only [getPointDirectLightIrradiance]
      rw [if_neg h]
      intro _
      rfl

/-- Witness for C4: a point light at the origin with cutoff distance 1 and a
surface point at distance 2 is invisible and contributes color `(0,0,0)`. -/
theorem C4_pointLight_visibility_witness :
    (getPointDirectLightIrradiance ⟨⟨0, 0, 0⟩, ⟨1, 1, 1⟩, 1, 0⟩
        ⟨⟨0, 0, 2⟩, ⟨0, 0, 1⟩, ⟨0, 0, 1⟩⟩).visible = false ∧
    (getPointDirectLightIrradiance ⟨⟨0, 0, 0⟩, ⟨1, 1, 1⟩, 1, 0⟩
        ⟨⟨0, 0, 2⟩, ⟨0, 0, 1⟩, ⟨0, 0, 1⟩⟩).color = ⟨0, 0, 0⟩ := by
  have h := C4_pointLight_visibility ⟨⟨0, 0, 0⟩, ⟨1, 1, 1⟩, 1, 0⟩
    ⟨⟨0, 0, 2⟩, ⟨0, 0, 1⟩, ⟨0, 0, 1⟩⟩
  have hsub : (⟨0, 0, 0⟩ : Vec3) - ⟨0, 0, 2⟩ = ⟨0, 0, -2⟩ := by
    ext <;> norm_num
  have hd : length3 (⟨0, 0, -2⟩ : Vec3) = 2 := by
    unfold length3
    rw [show dot3 (⟨0, 0, -2⟩ : Vec3) ⟨0, 0, -2⟩ = 2 * 2 by norm_num [dot3]]
    exact Real.sqrt_mul_self (by norm_num)
  have hvis := h.1
  rw [show (⟨⟨0, 0, 0⟩, ⟨1, 1, 1⟩, 1, 0⟩ : PointLight).position -
      (⟨⟨0, 0, 2⟩, ⟨0, 0, 1⟩, ⟨0, 0, 1⟩⟩ : GeometricContext).position =
      ⟨0, 0, -2⟩ from hsub, hd] at hvis
  have hfalse : (getPointDirectLightIrradiance ⟨⟨0, 0, 0⟩, ⟨1, 1, 1⟩, 1, 0⟩
      ⟨⟨0, 0, 2⟩, ⟨0, 0, 1⟩, ⟨0, 0, 1⟩⟩).visible = false := by
    rcases Bool.eq_false_or_eq_true (getPointDirectLightIrradiance
        ⟨⟨0, 0, 0⟩, ⟨1, 1, 1⟩, 1, 0⟩ ⟨⟨0, 0, 2⟩, ⟨0, 0, 1⟩, ⟨0, 0, 1⟩⟩).visible with hb | hb
    · exfalso
      rcases hvis.mp hb with hc | hc
      · exact absurd hc (by norm_num)
      · exact absurd hc (by norm_num)
    · exact hb
  exact ⟨hfalse, h.2 hfalse⟩

/-- Claim C5 (amended): the Smith–Schlick `G` factors and the `SpecularBRDF`
denominator are additive-epsilon protected and strictly positive for all
saturated dot products. -/
theorem C5_guarded_denominators (a x y : ℝ) :
    0 < G_Smith_denominator (G_k a) (saturate x) ∧
    0 < specularDenominator (saturate x) (saturate y) := by
  constructor
  · exact G_Smith_denominator_pos (G_k_pos a) (saturate_nonneg x) (saturate_le_one x)
  · have h := mul_nonneg (saturate_nonneg x) (saturate_nonneg y)
    unfold specularDenominator EPSILON
    nlinarith [h]

/-- Counterexample for C5 as stated: with cutoff distance 0 and decay exponent
1, the attenuation division is evaluated (`decay > 0`), its denominator — the
raw cutoff distance, with no epsilon — is 0, and the light is nonetheless in
range (visible), so the zero-denominator division is reached. -/
theorem C5_attenuation_division_counterexample :
    punctualDecayActive 1 ∧
    punctualAttenuationDenominator 1 0 1 = 0 ∧
    testLightInRange 1 0 := by
  refine ⟨?_, rfl, ?_⟩
  · unfold punctualDecayActive
    norm_num
  · unfold testLightInRange
    left
    rfl

/-- Claim C6: `setCameraPositionWithPolar` puts the camera at
`radius * (sin θ cos φ, sin θ sin φ, cos θ)`, looks at the origin, and sets
the up vector to `(-cos θ cos φ, -cos θ sin φ, sin θ)`. -/
theorem C6_camera_pose (polar : PolarCoordinate3) (camera : CameraState) :
    setCameraPositionWithPolar polar camera =
      { position := polar.radius •
          (⟨Real.sin polar.theta * Real.cos polar.phi,
            Real.sin polar.theta * Real.sin polar.phi,
            Real.cos polar.theta⟩ : Vec3)
        lookTarget := origin3
        up := ⟨-(Real.cos polar.theta * Real.cos polar.phi),
               -(Real.cos polar.theta * Real.sin polar.phi),
               Real.sin polar.theta⟩ } := by
  ext <;>
    simp only [setCameraPositionWithPolar, lookAt, origin3,
      Vec3.smul_x, Vec3.smul_y, Vec3.smul_z] <;>
    ring

/-- Claim C7: for every polar coordinate, the camera's up vector is orthogonal
to its position relative to the origin. -/
theorem C7_up_orthogonal_position (polar : PolarCoordinate3) (camera : CameraState) :
    dot3 (setCameraPositionWithPolar polar camera).up
      ((setCameraPositionWithPolar polar camera).position - origin3) = 0 := by
  simp only [setCameraPositionWithPolar, lookAt, origin3, dot3,
    Vec3.sub_x, Vec3.sub_y, Vec3.sub_z]
  linear_combination (-(polar.radius * Real.cos polar.theta * Real.sin polar.theta)) *
    Real.sin_sq_add_cos_sq polar.phi

/-- Claim C8: with 0 directional lights the fragment output is `(0,0,0,1)`,
and for every input the output alpha is exactly 1. -/
theorem C8_fragment_black_and_opaque :
    (∀ (vViewPosition vNormal : Vec3) (vMat : Fin 4 → Fin 4 → ℝ)
        (metallic roughness : ℝ) (albedo : Vec3),
      mainFragment vViewPosition vNormal vMat metallic roughness albedo 0 =
        ⟨0, 0, 0, 1⟩) ∧
    (∀ (vViewPosition vNormal : Vec3) (vMat : Fin 4 → Fin 4 → ℝ)
        (metallic roughness : ℝ) (albedo : Vec3) (numDirectionalLights : ℤ),
      (mainFragment vViewPosition vNormal vMat metallic roughness albedo
        numDirectionalLights).w = 1) := by
  constructor
  · intro vViewPosition vNormal vMat metallic roughness albedo
    ext <;>
      norm_num [mainFragment, directionalLightLoop, zeroReflectedLight]
  · intro vViewPosition vNormal vMat metallic roughness albedo numDirectionalLights
    norm_num [mainFragment]

/-- Claim C9: a mouse-move sample with the button held decreases `phi` by
exactly `0.002 * deltaX` and `theta` by exactly `0.002 * deltaY` (no clamping,
radius untouched); with the button up the polar coordinate is unchanged. -/
theorem C9_mousemove_update (polar : PolarCoordinate3) (movementX movementY : ℝ) :
    (mousemoveUpdate true polar movementX movementY).phi =
      polar.phi - 0.002 * movementX ∧
    (mousemoveUpdate true polar movementX movementY).theta =
      polar.theta - 0.002 * movementY ∧
    (mousemoveUpdate true polar movementX movementY).radius = polar.radius ∧
    mousemoveUpdate false polar movementX movementY = polar := by
  refine ⟨rfl, rfl, rfl, rfl⟩

/-- Claim C10: the camera up vector produced by `setCameraPositionWithPolar`
has unit length for every polar coordinate, independent of the radius. -/
theorem C10_up_unit_length (polar : PolarCoordinate3) (camera : CameraState) :
    dot3 (setCameraPositionWithPolar polar camera).up
      (setCameraPositionWithPolar polar camera).up = 1 := by
  simp only [setCameraPositionWithPolar, lookAt, dot3]
  linear_combination (Real.cos polar.theta * Real.cos polar.theta) *
      Real.sin_sq_add_cos_sq polar.phi + Real.sin_sq_add_cos_sq polar.theta

end ThreeLab

end
